import Mathlib

/-!
# Verification of the PyQC orchestration core (`src/pyqc/src/pyqc/core.py`)

Shallow embedding of the result-aggregation and reporting engine:
`Issue`, `CheckResult`, the checker failure boundaries of
`PyQCRunner.check_file` / `fix_file`, the parallel collection of
`check_files_parallel` / `fix_files_parallel`, and the `ReportGenerator`
functions.

Modelling conventions, stated once:
* `pathlib.Path` values are modelled as `String`; the code only ever uses
  `str(path)` for sorting and display, so nothing is lost.
* Wall-clock fields (`execution_time`) and the optional floating-point
  performance blocks of the reports are outside the model: no claim touches
  them and they are nondeterministic floats.
* A Python dict used as an ordered string-keyed map (`counts`,
  `severity_counts`) is modelled as an association list `List (String × Nat)`
  preserving insertion order, exactly as CPython dicts do.
* A checker call that can raise is modelled by an explicit outcome type:
  `FileNotFoundError` becomes `toolMissing`, any other exception becomes
  `failure msg` where `msg` is the `str(e)` text.
* The thread pool of `check_files_parallel` is modelled by an explicit
  arrival list: one entry per submitted future, carrying the path it was
  submitted for and whether `future.result()` returned normally or raised
  (a scheduling-layer fault).  `as_completed` yields the futures in the
  arrival order; faithfulness only requires that the arrival paths are a
  permutation of the submitted paths.  The pool size `max_workers` does not
  affect any collected value and is not modelled.
-/

/-- One raw issue dict as handed over by a checker adapter.  Each field
records whether the corresponding key is present; `fix` records the
truthiness of the `"fix"` entry that `check_file` inspects on lint issues. -/
structure RawIssue where
  filename : Option String
  line : Option Nat
  column : Option Nat
  severity : Option String
  message : Option String
  code : Option String
  fixable : Option Bool
  fix : Bool
deriving DecidableEq, Repr

/-- Embedding of `Issue.__init__` of core.py: the normalized issue record. -/
structure Issue where
  filename : String
  line : Nat
  column : Option Nat
  severity : String
  message : String
  code : Option String
  checker : String
  fixable : Bool
deriving DecidableEq, Repr

/-- Embedding of `CheckResult.__init__`: per-file aggregate (execution_time and the
config reference omitted, see module conventions). -/
structure CheckResult where
  path : String
  issues : List Issue
  checks_run : List String
  success : Bool
  error_message : Option String
deriving DecidableEq, Repr

/-- A fresh `CheckResult(path, config)`. -/
def CheckResult.init (path : String) : CheckResult :=
  { path := path, issues := [], checks_run := [], success := true, error_message := none }

/-- The issue built for one raw entry inside `CheckResult.add_issues`:
every `.get` default of the Python constructor call, verbatim. -/
def mkIssue (path checker : String) (raw : RawIssue) : Issue :=
  { filename := raw.filename.getD path
    line := raw.line.getD 0
    column := raw.column
    severity := raw.severity.getD "error"
    message := raw.message.getD "Unknown issue"
    code := raw.code
    checker := checker
    fixable := raw.fixable.getD false }

/-- Embedding of `CheckResult.add_issues`: appends one normalized issue per raw entry,
tagged with the checker name. -/
def CheckResult.add_issues (r : CheckResult) (raws : List RawIssue) (checker : String) :
    CheckResult :=
  { r with issues := r.issues ++ raws.map (mkIssue r.path checker) }

/-- The `counts` / `severity_counts` dict literal `{"error": 0, "warning": 0,
"info": 0, "note": 0}`. -/
def initCounts : List (String × Nat) := [("error", 0), ("warning", 0), ("info", 0), ("note", 0)]

/-- Membership test `issue.severity in counts` on the ordered dict model. -/
def containsKey (d : List (String × Nat)) (k : String) : Bool :=
  d.any (fun p => p.1 == k)

/-- In-place `counts[key] += 1` on the ordered dict model. -/
def incKey : List (String × Nat) → String → List (String × Nat)
  | [], _ => []
  | (k, v) :: rest, key => if k == key then (k, v + 1) :: rest else (k, v) :: incKey rest key

/-- In-place `d[key] += v`.  In the code the key is always one of the four
canonical severities already present, so the Python `KeyError` path for an
absent key is unreachable; an absent key is modelled as a no-op. -/
def addKey (d : List (String × Nat)) (k : String) (v : Nat) : List (String × Nat) :=
  d.map (fun p => if p.1 == k then (p.1, p.2 + v) else p)

/-- Dict lookup with default 0, used only to state properties of the maps. -/
def lookupD (d : List (String × Nat)) (k : String) : Nat :=
  match d.find? (fun p => p.1 == k) with
  | some p => p.2
  | none => 0

/-- Embedding of `CheckResult.get_issue_count_by_severity`: count issues per severity,
unknown severities counted under `"error"`. -/
def CheckResult.get_issue_count_by_severity (r : CheckResult) : List (String × Nat) :=
  r.issues.foldl
    (fun counts issue =>
      if containsKey counts issue.severity then incKey counts issue.severity
      else incKey counts "error")
    initCounts

/-- Embedding of `CheckResult.get_fixable_issues`. -/
def CheckResult.get_fixable_issues (r : CheckResult) : List Issue :=
  r.issues.filter (fun issue => issue.fixable)

/-- Outcome of one checker-adapter call (`check_lint` / `check_format` /
`check_types`): a normal return, a `FileNotFoundError` (tool not
installed), or any other exception with its `str(e)` text. -/
inductive CheckOutcome where
  | ok (issues : List RawIssue)
  | toolMissing
  | failure (msg : String)
deriving DecidableEq, Repr

/-- Outcome of one `fix_format` call: a boolean return value, a
`FileNotFoundError`, or any other exception with its `str(e)` text. -/
inductive FixOutcome where
  | ok (success : Bool)
  | toolMissing
  | failure (msg : String)
deriving DecidableEq, Repr

/-- The checker capability set held by `PyQCRunner` (the ruff checker and
the type checker), as deterministic functions of the path: each call's
outcome is fixed by the file it is given. -/
structure Checkers where
  check_lint : String → CheckOutcome
  check_format : String → CheckOutcome
  check_types : String → CheckOutcome
  fix_format : String → Bool → FixOutcome

/-- The slice of `PyQCConfig` the orchestration logic reads. -/
structure PyQCConfig where
  parallel : Bool
deriving DecidableEq, Repr

/-- Embedding of `PyQCRunner.check_file`: the three checker calls in fixed order, each
inside its own failure boundary.  The enclosing catch-all
(`Unexpected error`) is unreachable in the model because every statement it
guards is total here. -/
def check_file (ck : Checkers) (path : String) : CheckResult :=
  let result := CheckResult.init path
  let result :=
    match ck.check_lint path with
    | .ok lint_issues =>
        let lint_issues := lint_issues.map
          (fun (issue : RawIssue) =>
            if issue.fix then { issue with fixable := some true } else issue)
        let r := result.add_issues lint_issues "ruff-lint"
        { r with checks_run := r.checks_run ++ ["ruff-lint"] }
    | .toolMissing => { result with checks_run := result.checks_run ++ ["ruff-lint-skipped"] }
    | .failure e =>
        { result with success := false, error_message := some ("Ruff lint failed: " ++ e) }
  let result :=
    match ck.check_format path with
    | .ok format_issues =>
        let format_issues := format_issues.map
          (fun (issue : RawIssue) => { issue with fixable := some true })
        let r := result.add_issues format_issues "ruff-format"
        { r with checks_run := r.checks_run ++ ["ruff-format"] }
    | .toolMissing => { result with checks_run := result.checks_run ++ ["ruff-format-skipped"] }
    | .failure e =>
        { result with success := false, error_message := some ("Ruff format failed: " ++ e) }
  let result :=
    match ck.check_types path with
    | .ok type_issues =>
        let r := result.add_issues type_issues "type-check"
        { r with checks_run := r.checks_run ++ ["type-check"] }
    | .toolMissing => { result with checks_run := result.checks_run ++ ["type-check-skipped"] }
    | .failure e =>
        { result with success := false, error_message := some ("Type check failed: " ++ e) }
  result

/-- Embedding of `PyQCRunner.fix_file`: the single format-fix call under the same
failure-boundary discipline. -/
def fix_file (ck : Checkers) (path : String) (dry_run : Bool) : CheckResult :=
  let result := CheckResult.init path
  match ck.fix_format path dry_run with
  | .ok true => { result with checks_run := result.checks_run ++ ["ruff-format-fix"] }
  | .ok false =>
      { result with success := false, error_message := some "Ruff format fix failed" }
  | .toolMissing => { result with checks_run := result.checks_run ++ ["ruff-format-fix-skipped"] }
  | .failure e =>
      { result with success := false, error_message := some ("Ruff format fix failed: " ++ e) }

/-- Whether one submitted future returned normally from `future.result()`
or raised out of the scheduling layer with `str(e)` text. -/
inductive TaskOutcome where
  | completed
  | schedFailed (msg : String)
deriving DecidableEq, Repr

/-- The `results.sort(key=lambda r: str(r.path))` order. -/
def pathLe (a b : CheckResult) : Prop := a.path ≤ b.path

instance : DecidableRel pathLe := fun a b => String.decidableLE a.path b.path

instance : IsTotal CheckResult pathLe := ⟨fun a b => le_total a.path b.path⟩

instance : IsTrans CheckResult pathLe := ⟨fun _ _ _ hab hbc => le_trans hab hbc⟩

/-- Embedding of `results.sort(key=lambda r: str(r.path))`: Python's stable sort,
modelled by the (stable) insertion sort. -/
def sortResults (l : List CheckResult) : List CheckResult := l.insertionSort pathLe

/-- The collection-loop body of `check_files_parallel`: a future that
completed yields its `check_file` result, a future that raised is converted
into a synthetic failed result for its path. -/
def collectCheck (ck : Checkers) (entry : String × TaskOutcome) : CheckResult :=
  match entry.2 with
  | .completed => check_file ck entry.1
  | .schedFailed e =>
      { CheckResult.init entry.1 with
          success := false, error_message := some ("Parallel execution failed: " ++ e) }

/-- The collection-loop body of `fix_files_parallel`. -/
def collectFix (ck : Checkers) (dry_run : Bool) (entry : String × TaskOutcome) : CheckResult :=
  match entry.2 with
  | .completed => fix_file ck entry.1 dry_run
  | .schedFailed e =>
      { CheckResult.init entry.1 with
          success := false, error_message := some ("Parallel execution failed: " ++ e) }

/-- Embedding of `PyQCRunner.check_files_parallel`.  `arrival` is the order in which
`as_completed` yields the submitted futures together with each future's
fate; its paths are a permutation of `paths` (one future per path). -/
def check_files_parallel (ck : Checkers) (config : PyQCConfig) (paths : List String)
    (arrival : List (String × TaskOutcome)) : List CheckResult :=
  if paths.isEmpty then []
  else if !config.parallel then paths.map (check_file ck)
  else sortResults (arrival.map (collectCheck ck))

/-- Embedding of `PyQCRunner.fix_files_parallel`. -/
def fix_files_parallel (ck : Checkers) (config : PyQCConfig) (paths : List String)
    (dry_run : Bool) (arrival : List (String × TaskOutcome)) : List CheckResult :=
  if paths.isEmpty then []
  else if !config.parallel then paths.map (fun p => fix_file ck p dry_run)
  else sortResults (arrival.map (collectFix ck dry_run))

/-- Python truthiness of `issue.column` (`int | None`): `None` and `0` are
falsy. -/
def columnTruthy : Option Nat → Bool
  | none => false
  | some c => c != 0

/-- Python truthiness of `issue.code` (`str | None`): `None` and `""` are
falsy. -/
def codeTruthy : Option String → Bool
  | none => false
  | some s => s != ""

/-- The `[checker]` / `[checker:code]` suffix shared by the text and CI
reports. -/
def checkerInfo (issue : Issue) : String :=
  if codeTruthy issue.code then
    "[" ++ issue.checker ++ ":" ++ (issue.code.getD "") ++ "]"
  else "[" ++ issue.checker ++ "]"

/-- One issue line of `ReportGenerator.generate_text_report`:
`location: severity: message [checker[:code]]` where the column joins the
location only when truthy. -/
def textIssueLine (issue : Issue) : String :=
  let location := issue.filename ++ ":" ++ toString issue.line
  let location := if columnTruthy issue.column then location ++ ":" ++ toString (issue.column.getD 0)
    else location
  location ++ ": " ++ issue.severity ++ ": " ++ issue.message ++ " " ++ checkerInfo issue

/-- The severity aggregation loop shared by `generate_text_report` and
`generate_json_report`: add every result's per-severity counts into a fresh
four-key dict. -/
def aggregateSeverityCounts (results : List CheckResult) : List (String × Nat) :=
  results.foldl
    (fun acc r => (r.get_issue_count_by_severity).foldl (fun a kv => addKey a kv.1 kv.2) acc)
    initCounts

/-- Embedding of `ReportGenerator.generate_text_report` (the default
`show_performance=False` call; the optional performance block is
floating-point timing, outside the model). -/
def generate_text_report (results : List CheckResult) : String :=
  if results.isEmpty then "No files checked."
  else
    let total_files := results.length
    let total_issues := (results.map (fun r => r.issues.length)).sum
    let successful_files := (results.filter (fun r => r.success)).length
    let header := ["PyQC Report", String.mk (List.replicate 50 '='),
      "Files checked: " ++ toString total_files,
      "Successful: " ++ toString successful_files,
      "Total issues: " ++ toString total_issues, ""]
    let severity_counts := aggregateSeverityCounts results
    let sevLines := ["Issues by severity:"] ++
      (severity_counts.filterMap
        (fun kv => if kv.2 > 0 then some ("  " ++ kv.1 ++ ": " ++ toString kv.2) else none)) ++ [""]
    let issueLines :=
      if total_issues > 0 then
        ["Issues found:", String.mk (List.replicate 30 '-')] ++
          results.flatMap (fun r => r.issues.map textIssueLine)
      else []
    String.intercalate "\n" (header ++ sevLines ++ issueLines)

/-- The `summary` object of `ReportGenerator.generate_json_report`. -/
structure JsonSummary where
  files_checked : Nat
  successful_files : Nat
  total_issues : Nat
  severity_counts : List (String × Nat)
deriving DecidableEq, Repr

/-- Embedding of `ReportGenerator.generate_json_report`, restricted to the `summary`
record (the `results` array is the field-for-field serialization of the
inputs via `to_dict` and the optional performance block is floating-point
timing, both outside the claims). -/
def generate_json_report (results : List CheckResult) : JsonSummary :=
  { files_checked := results.length
    successful_files := (results.filter (fun r => r.success)).length
    total_issues := (results.map (fun r => r.issues.length)).sum
    severity_counts := aggregateSeverityCounts results }

/-- The `annotation_type` value of `generate_github_actions_report`:
`"error" if issue.severity == "error" else "warning"`. -/
def annotationType (issue : Issue) : String :=
  if issue.severity == "error" then "error" else "warning"

/-- One line of `ReportGenerator.generate_github_actions_report`. -/
def annotationLine (issue : Issue) : String :=
  let annotation_type := annotationType issue
  let location_info := "file=" ++ issue.filename ++ ",line=" ++ toString issue.line
  let location_info := if columnTruthy issue.column then
      location_info ++ ",col=" ++ toString (issue.column.getD 0)
    else location_info
  "::" ++ annotation_type ++ " " ++ location_info ++ "::" ++ issue.message ++ " " ++
    checkerInfo issue

/-- Embedding of `ReportGenerator.generate_github_actions_report`: one line per issue,
in per-result then per-issue order, joined by newlines. -/
def generate_github_actions_report (results : List CheckResult) : String :=
  String.intercalate "\n" (results.flatMap (fun r => r.issues.map annotationLine))

/-- The `checks_run` contribution of one checker call: its name when it
returned, `name ++ "-skipped"` when the tool was missing, nothing when it
raised. -/
def outcomeEntry (o : CheckOutcome) (name : String) : List String :=
  match o with
  | .ok _ => [name]
  | .toolMissing => [name ++ "-skipped"]
  | .failure _ => []

/-- Whether a checker call raised an error other than tool-not-installed. -/
def outcomeIsFailure : CheckOutcome → Bool
  | .failure _ => true
  | _ => false

/-- The `error_message` that survives `check_file`: the message of the last
failing checker in the fixed lint, format, type order (each later failure
overwrites the earlier one). -/
def lastFailureMessage (ck : Checkers) (path : String) : Option String :=
  match ck.check_types path with
  | .failure e => some ("Type check failed: " ++ e)
  | _ =>
    match ck.check_format path with
    | .failure e => some ("Ruff format failed: " ++ e)
    | _ =>
      match ck.check_lint path with
      | .failure e => some ("Ruff lint failed: " ++ e)
      | _ => none

/-- Fixture: every checker call raises a non-`FileNotFoundError` error. -/
def ckFailAll : Checkers :=
  { check_lint := fun _ => .failure "boom1"
    check_format := fun _ => .failure "boom2"
    check_types := fun _ => .failure "boom3"
    fix_format := fun _ _ => .failure "boom4" }

/-- Fixture: every underlying tool is missing (`FileNotFoundError`). -/
def ckMissingAll : Checkers :=
  { check_lint := fun _ => .toolMissing
    check_format := fun _ => .toolMissing
    check_types := fun _ => .toolMissing
    fix_format := fun _ _ => .toolMissing }

/-- Fixture: every checker call succeeds with no issues. -/
def ckOkEmpty : Checkers :=
  { check_lint := fun _ => .ok []
    check_format := fun _ => .ok []
    check_types := fun _ => .ok []
    fix_format := fun _ _ => .ok true }

/-- Number of issues carrying exactly severity `s`. -/
def countSeverity (issues : List Issue) (s : String) : Nat :=
  (issues.filter (fun i => i.severity == s)).length

/-- Number of issues whose severity is outside the four canonical values. -/
def countNonCanonical (issues : List Issue) : Nat :=
  (issues.filter (fun i =>
    !(i.severity == "error" || i.severity == "warning" || i.severity == "info" ||
      i.severity == "note"))).length

/-- Number of issues counted under the `"error"` bucket: severity
`"error"` or any non-canonical severity. -/
def countErrorLike (issues : List Issue) : Nat :=
  (issues.filter (fun i =>
    !(i.severity == "warning" || i.severity == "info" || i.severity == "note"))).length

/-- Fixture issue for the report scenarios. -/
def scenarioIssue (sev : String) : Issue :=
  { filename := "f.py", line := 1, column := none, severity := sev, message := "m",
    code := none, checker := "ruff-lint", fixable := false }

/-- Fixture: one file with one error issue and one warning issue. -/
def scenarioResult : CheckResult :=
  { CheckResult.init "f.py" with issues := [scenarioIssue "error", scenarioIssue "warning"] }

/-- All issues of a result list, in per-result then per-issue order. -/
def allIssues (results : List CheckResult) : List Issue :=
  results.flatMap (fun r => r.issues)

/-- Fixture: a raw issue map with no `severity` key. -/
def rawNoSeverity : RawIssue :=
  { filename := none, line := some 3, column := none, severity := none,
    message := some "m", code := none, fixable := none, fix := false }

/-- Fixture: an issue carrying a severity outside the four canonical
values. -/
def issueFatal : Issue :=
  { filename := "f.py", line := 1, column := none, severity := "fatal", message := "m",
    code := none, checker := "type-check", fixable := false }

/-- Fixture: parallel execution mode. -/
def parallelConfig : PyQCConfig := { parallel := true }

/-- Fixture: sequential execution mode. -/
def seqConfig : PyQCConfig := { parallel := false }

/-! ## Characterization of `check_file`'s failure boundaries -/

theorem check_file_char (ck : Checkers) (path : String) :
    (check_file ck path).path = path ∧
    (check_file ck path).checks_run =
      outcomeEntry (ck.check_lint path) "ruff-lint" ++
        outcomeEntry (ck.check_format path) "ruff-format" ++
        outcomeEntry (ck.check_types path) "type-check" ∧
    (check_file ck path).success =
      (!(outcomeIsFailure (ck.check_lint path) || outcomeIsFailure (ck.check_format path) ||
          outcomeIsFailure (ck.check_types path))) ∧
    (check_file ck path).error_message = lastFailureMessage ck path := by
  cases hl : ck.check_lint path <;> cases hf : ck.check_format path <;>
    cases ht : ck.check_types path <;>
    simp [check_file, outcomeEntry, outcomeIsFailure, lastFailureMessage, hl, hf, ht,
      CheckResult.add_issues, CheckResult.init]

/-- Claim C3: each of the three checker calls of `check_file` has its own
independent failure boundary: the `checks_run` trace decomposes into the
three calls' independent contributions (so a failing checker never prevents
the later ones from running), `success` ends up `false` exactly when some
checker failed with an error other than tool-not-installed, the surviving
`error_message` is the message of the last failing checker in lint, format,
type order (naming that checker and the underlying error), and in
particular a later failure overwrites an earlier one's message. -/
theorem check_file_failure_boundaries (ck : Checkers) (path : String) :
    ((check_file ck path).checks_run =
      outcomeEntry (ck.check_lint path) "ruff-lint" ++
        outcomeEntry (ck.check_format path) "ruff-format" ++
        outcomeEntry (ck.check_types path) "type-check") ∧
    ((check_file ck path).success = false ↔
      (outcomeIsFailure (ck.check_lint path) || outcomeIsFailure (ck.check_format path) ||
        outcomeIsFailure (ck.check_types path)) = true) ∧
    ((check_file ck path).error_message = lastFailureMessage ck path) ∧
    (∀ e e', ck.check_format path = .failure e → ck.check_types path = .failure e' →
      (check_file ck path).error_message = some ("Type check failed: " ++ e')) ∧
    (∀ e, outcomeIsFailure (ck.check_types path) = false → ck.check_format path = .failure e →
      (check_file ck path).error_message = some ("Ruff format failed: " ++ e)) := by
  obtain ⟨-, hruns, hsucc, hmsg⟩ := check_file_char ck path
  refine ⟨hruns, ?_, hmsg, ?_, ?_⟩
  · rw [hsucc]
    cases outcomeIsFailure (ck.check_lint path) <;>
      cases outcomeIsFailure (ck.check_format path) <;>
      cases outcomeIsFailure (ck.check_types path) <;> simp
  · intro e e' _ ht
    rw [hmsg, lastFailureMessage, ht]
  · intro e hts hf
    rw [hmsg, lastFailureMessage]
    cases ht : ck.check_types path <;> rw [ht] at hts <;>
      simp [outcomeIsFailure] at hts ⊢ <;> rw [hf]

/-- Witness for C3 at a concrete input: with all three checkers failing,
the file is marked failed and only the last (type check) failure message
survives, the earlier ones having been overwritten. -/
theorem check_file_failure_boundaries_witness :
    (check_file ckFailAll "f.py").success = false ∧
    (check_file ckFailAll "f.py").error_message = some "Type check failed: boom3" := by
  have h := check_file_failure_boundaries ckFailAll "f.py"
  exact ⟨(h.2.1).mpr (by rfl), h.2.2.2.1 "boom2" "boom3" rfl rfl⟩

/-- Claim C4: a tool-not-installed outcome appends `"<name>-skipped"` to
`checks_run`, lets execution proceed to the next checker, and on its own
never flips `success` to `false` and never sets `error_message`: when no
checker call fails with a non-missing error, the result is successful with
no error message, whatever mixture of skips and successes occurred. -/
theorem check_file_tool_missing_is_skip (ck : Checkers) (path : String) :
    (ck.check_lint path = .toolMissing →
      "ruff-lint-skipped" ∈ (check_file ck path).checks_run) ∧
    (ck.check_format path = .toolMissing →
      "ruff-format-skipped" ∈ (check_file ck path).checks_run) ∧
    (ck.check_types path = .toolMissing →
      "type-check-skipped" ∈ (check_file ck path).checks_run) ∧
    (∀ t, ck.check_lint path = .toolMissing → ck.check_types path = .ok t →
      "type-check" ∈ (check_file ck path).checks_run) ∧
    (outcomeIsFailure (ck.check_lint path) = false →
      outcomeIsFailure (ck.check_format path) = false →
      outcomeIsFailure (ck.check_types path) = false →
      (check_file ck path).success = true ∧ (check_file ck path).error_message = none) := by
  obtain ⟨-, hruns, hsucc, hmsg⟩ := check_file_char ck path
  refine ⟨?_, ?_, ?_, ?_, ?_⟩
  · intro h; rw [hruns, h]; simp [outcomeEntry]
  · intro h; rw [hruns, h]; simp [outcomeEntry]
  · intro h; rw [hruns, h]; simp [outcomeEntry]
  · intro t _ h; rw [hruns, h]; simp [outcomeEntry]
  · intro h1 h2 h3
    constructor
    · rw [hsucc, h1, h2, h3]; rfl
    · rw [hmsg, lastFailureMessage]
      cases ht : ck.check_types path <;> rw [ht] at h3 <;> simp [outcomeIsFailure] at h3 ⊢ <;>
        cases hf : ck.check_format path <;> rw [hf] at h2 <;>
          simp [outcomeIsFailure] at h2 ⊢ <;>
          cases hl : ck.check_lint path <;> rw [hl] at h1 <;> simp [outcomeIsFailure] at h1 ⊢

/-- Witness for C4 at a concrete input: with all tools missing, the skip
marker is recorded and the file still counts as successful with no error
message. -/
theorem check_file_tool_missing_is_skip_witness :
    "ruff-lint-skipped" ∈ (check_file ckMissingAll "f.py").checks_run ∧
    (check_file ckMissingAll "f.py").success = true ∧
    (check_file ckMissingAll "f.py").error_message = none := by
  have h := check_file_tool_missing_is_skip ckMissingAll "f.py"
  exact ⟨h.1 rfl, (h.2.2.2.2 rfl rfl rfl).1, (h.2.2.2.2 rfl rfl rfl).2⟩

/-! ## Severity counting -/

theorem countErrorLike_eq (issues : List Issue) :
    countErrorLike issues = countSeverity issues "error" + countNonCanonical issues := by
  induction issues with
  | nil => rfl
  | cons i rest ih =>
    unfold countErrorLike countSeverity countNonCanonical at ih ⊢
    rw [List.filter_cons, List.filter_cons, List.filter_cons]
    by_cases h1 : i.severity = "error"
    · rw [if_pos (by simp [h1]), if_pos (by simp [h1]), if_neg (by simp [h1])]
      simp only [List.length_cons]
      omega
    · by_cases h2 : i.severity = "warning"
      · rw [if_neg (by simp [h2]), if_neg (by simp [h1]), if_neg (by simp [h2])]
        omega
      · by_cases h3 : i.severity = "info"
        · rw [if_neg (by simp [h3]), if_neg (by simp [h1]), if_neg (by simp [h3])]
          omega
        · by_cases h4 : i.severity = "note"
          · rw [if_neg (by simp [h4]), if_neg (by simp [h1]), if_neg (by simp [h4])]
            omega
          · rw [if_pos (by simp [h2, h3, h4]), if_neg (by simp [h1]),
              if_pos (by simp [h1, h2, h3, h4])]
            simp only [List.length_cons]
            omega

theorem counts_foldl (issues : List Issue) (a b c d : Nat) :
    issues.foldl
      (fun counts issue =>
        if containsKey counts issue.severity then incKey counts issue.severity
        else incKey counts "error")
      [("error", a), ("warning", b), ("info", c), ("note", d)] =
      [("error", a + countErrorLike issues), ("warning", b + countSeverity issues "warning"),
        ("info", c + countSeverity issues "info"), ("note", d + countSeverity issues "note")] := by
  induction issues generalizing a b c d with
  | nil => simp [countErrorLike, countSeverity]
  | cons i rest ih =>
    rw [List.foldl_cons]
    by_cases h1 : i.severity = "error"
    · have hstep : (if containsKey [("error", a), ("warning", b), ("info", c), ("note", d)]
          i.severity then
          incKey [("error", a), ("warning", b), ("info", c), ("note", d)] i.severity
        else incKey [("error", a), ("warning", b), ("info", c), ("note", d)] "error") =
          [("error", a + 1), ("warning", b), ("info", c), ("note", d)] := by
        simp [containsKey, incKey, h1]
      rw [hstep, ih]
      simp [countErrorLike, countSeverity, List.filter_cons, h1]
      omega
    · by_cases h2 : i.severity = "warning"
      · have hstep : (if containsKey [("error", a), ("warning", b), ("info", c), ("note", d)]
            i.severity then
            incKey [("error", a), ("warning", b), ("info", c), ("note", d)] i.severity
          else incKey [("error", a), ("warning", b), ("info", c), ("note", d)] "error") =
            [("error", a), ("warning", b + 1), ("info", c), ("note", d)] := by
          simp [containsKey, incKey, h2]
        rw [hstep, ih]
        simp [countErrorLike, countSeverity, List.filter_cons, h2]
        omega
      · by_cases h3 : i.severity = "info"
        · have hstep : (if containsKey [("error", a), ("warning", b), ("info", c), ("note", d)]
              i.severity then
              incKey [("error", a), ("warning", b), ("info", c), ("note", d)] i.severity
            else incKey [("error", a), ("warning", b), ("info", c), ("note", d)] "error") =
              [("error", a), ("warning", b), ("info", c + 1), ("note", d)] := by
            simp [containsKey, incKey, h3]
          rw [hstep, ih]
          simp [countErrorLike, countSeverity, List.filter_cons, h3]
          omega
        · by_cases h4 : i.severity = "note"
          · have hstep : (if containsKey [("error", a), ("warning", b), ("info", c), ("note", d)]
                i.severity then
                incKey [("error", a), ("warning", b), ("info", c), ("note", d)] i.severity
              else incKey [("error", a), ("warning", b), ("info", c), ("note", d)] "error") =
                [("error", a), ("warning", b), ("info", c), ("note", d + 1)] := by
              simp [containsKey, incKey, h4]
            rw [hstep, ih]
            simp [countErrorLike, countSeverity, List.filter_cons, h4]
            omega
          · have hstep : (if containsKey [("error", a), ("warning", b), ("info", c), ("note", d)]
                i.severity then
                incKey [("error", a), ("warning", b), ("info", c), ("note", d)] i.severity
              else incKey [("error", a), ("warning", b), ("info", c), ("note", d)] "error") =
                [("error", a + 1), ("warning", b), ("info", c), ("note", d)] := by
              simp [containsKey, incKey, h1, h2, h3, h4, Ne.symm h1, Ne.symm h2,
                Ne.symm h3, Ne.symm h4]
            rw [hstep, ih]
            simp [countErrorLike, countSeverity, List.filter_cons, h1, h2, h3, h4]
            omega

/-- Closed form of `get_issue_count_by_severity`: the four canonical keys
in dict order with their counts. -/
theorem get_issue_count_eq (r : CheckResult) :
    r.get_issue_count_by_severity =
      [("error", countErrorLike r.issues), ("warning", countSeverity r.issues "warning"),
        ("info", countSeverity r.issues "info"), ("note", countSeverity r.issues "note")] := by
  have h := counts_foldl r.issues 0 0 0 0
  simpa [CheckResult.get_issue_count_by_severity, initCounts] using h

theorem lookupD_counts (r : CheckResult) :
    lookupD r.get_issue_count_by_severity "error" = countErrorLike r.issues ∧
    lookupD r.get_issue_count_by_severity "warning" = countSeverity r.issues "warning" ∧
    lookupD r.get_issue_count_by_severity "info" = countSeverity r.issues "info" ∧
    lookupD r.get_issue_count_by_severity "note" = countSeverity r.issues "note" := by
  rw [get_issue_count_eq]
  refine ⟨?_, ?_, ?_, ?_⟩ <;> simp [lookupD]

/-- Claim C6: `get_issue_count_by_severity` returns a map whose key set is
exactly the four canonical severities in order, mapping each canonical
severity to the number of issues carrying it, with every non-canonical
severity counted under `"error"`. -/
theorem issue_count_by_severity_spec (r : CheckResult) :
    (r.get_issue_count_by_severity).map Prod.fst = ["error", "warning", "info", "note"] ∧
    lookupD r.get_issue_count_by_severity "error" =
      countSeverity r.issues "error" + countNonCanonical r.issues ∧
    lookupD r.get_issue_count_by_severity "warning" = countSeverity r.issues "warning" ∧
    lookupD r.get_issue_count_by_severity "info" = countSeverity r.issues "info" ∧
    lookupD r.get_issue_count_by_severity "note" = countSeverity r.issues "note" := by
  obtain ⟨h1, h2, h3, h4⟩ := lookupD_counts r
  exact ⟨by rw [get_issue_count_eq]; rfl, by rw [h1, countErrorLike_eq], h2, h3, h4⟩

theorem aggregate_foldl (results : List CheckResult) (a b c d : Nat) :
    results.foldl
      (fun acc r => (r.get_issue_count_by_severity).foldl (fun x kv => addKey x kv.1 kv.2) acc)
      [("error", a), ("warning", b), ("info", c), ("note", d)] =
      [("error", a + (results.map (fun r => countErrorLike r.issues)).sum),
        ("warning", b + (results.map (fun r => countSeverity r.issues "warning")).sum),
        ("info", c + (results.map (fun r => countSeverity r.issues "info")).sum),
        ("note", d + (results.map (fun r => countSeverity r.issues "note")).sum)] := by
  induction results generalizing a b c d with
  | nil => simp
  | cons r rest ih =>
    rw [List.foldl_cons]
    have hstep : (r.get_issue_count_by_severity).foldl (fun x kv => addKey x kv.1 kv.2)
        [("error", a), ("warning", b), ("info", c), ("note", d)] =
        [("error", a + countErrorLike r.issues),
          ("warning", b + countSeverity r.issues "warning"),
          ("info", c + countSeverity r.issues "info"),
          ("note", d + countSeverity r.issues "note")] := by
      rw [get_issue_count_eq]
      simp [addKey]
    rw [hstep, ih]
    simp [Nat.add_assoc]

/-- Closed form of the severity aggregation loop shared by the text and
JSON reports. -/
theorem aggregateSeverityCounts_eq (results : List CheckResult) :
    aggregateSeverityCounts results =
      [("error", (results.map (fun r => countErrorLike r.issues)).sum),
        ("warning", (results.map (fun r => countSeverity r.issues "warning")).sum),
        ("info", (results.map (fun r => countSeverity r.issues "info")).sum),
        ("note", (results.map (fun r => countSeverity r.issues "note")).sum)] := by
  have h := aggregate_foldl results 0 0 0 0
  simpa [aggregateSeverityCounts, initCounts] using h

/-- Claim C7: the JSON report's `summary.severity_counts` is the pointwise
sum, over all results, of `get_issue_count_by_severity`, and
`summary.total_issues` is the total number of issues; in particular, for a
single file with one error issue and one warning issue, `total_issues` is
`2` and the counts are `error 1, warning 1, info 0, note 0`. -/
theorem json_summary_aggregates (results : List CheckResult) :
    (generate_json_report results).total_issues =
      (results.map (fun r => r.issues.length)).sum ∧
    (generate_json_report results).severity_counts =
      [("error", (results.map (fun r => lookupD r.get_issue_count_by_severity "error")).sum),
        ("warning",
          (results.map (fun r => lookupD r.get_issue_count_by_severity "warning")).sum),
        ("info", (results.map (fun r => lookupD r.get_issue_count_by_severity "info")).sum),
        ("note", (results.map (fun r => lookupD r.get_issue_count_by_severity "note")).sum)] ∧
    (generate_json_report [scenarioResult]).total_issues = 2 ∧
    (generate_json_report [scenarioResult]).severity_counts =
      [("error", 1), ("warning", 1), ("info", 0), ("note", 0)] := by
  refine ⟨rfl, ?_, by rfl, by rfl⟩
  show aggregateSeverityCounts results = _
  rw [aggregateSeverityCounts_eq]
  have he : results.map (fun r => lookupD r.get_issue_count_by_severity "error") =
      results.map (fun r => countErrorLike r.issues) :=
    List.map_congr_left (fun r _ => (lookupD_counts r).1)
  have hw : results.map (fun r => lookupD r.get_issue_count_by_severity "warning") =
      results.map (fun r => countSeverity r.issues "warning") :=
    List.map_congr_left (fun r _ => (lookupD_counts r).2.1)
  have hi : results.map (fun r => lookupD r.get_issue_count_by_severity "info") =
      results.map (fun r => countSeverity r.issues "info") :=
    List.map_congr_left (fun r _ => (lookupD_counts r).2.2.1)
  have hn : results.map (fun r => lookupD r.get_issue_count_by_severity "note") =
      results.map (fun r => countSeverity r.issues "note") :=
    List.map_congr_left (fun r _ => (lookupD_counts r).2.2.2)
  rw [he, hw, hi, hn]

/-- Claim C8: the CI-annotation report is exactly one line per issue, in
per-result then per-issue order, each line following the grammar
`::{error|warning} file=<path>,line=<line>[,col=<col>]::<message>
[<checker>[:<code>]]`; every issue whose severity is not `error` is
rendered with annotation type `warning`, and an input with no issues
(including the empty result list) yields the empty string. -/
theorem github_actions_report_format (results : List CheckResult) :
    generate_github_actions_report results =
      String.intercalate "\n" ((allIssues results).map annotationLine) ∧
    (∀ i : Issue, i.severity ≠ "error" → annotationType i = "warning") ∧
    (∀ i : Issue, i.severity = "error" → annotationType i = "error") ∧
    (∀ i : Issue,
      annotationLine i =
        "::" ++ annotationType i ++ " " ++
          ("file=" ++ i.filename ++ ",line=" ++ toString i.line ++
            (if columnTruthy i.column then ",col=" ++ toString (i.column.getD 0) else "")) ++
          "::" ++ i.message ++ " " ++ checkerInfo i) ∧
    (allIssues results = [] → generate_github_actions_report results = "") := by
  have hflat : generate_github_actions_report results =
      String.intercalate "\n" ((allIssues results).map annotationLine) := by
    rw [generate_github_actions_report, allIssues, List.map_flatMap]
  refine ⟨hflat, ?_, ?_, ?_, ?_⟩
  · intro i h
    simp [annotationType, h]
  · intro i h
    simp [annotationType, h]
  · intro i
    by_cases hc : columnTruthy i.column
    · simp [annotationLine, hc, String.append_assoc]
    · simp [annotationLine, hc, String.append_assoc]
  · intro h
    rw [hflat, h]
    rfl

/-- Witness for C8's conditional clauses at concrete inputs: a `warning`
issue is rendered as a `::warning` annotation, an `error` issue as
`::error`, and a no-issue input renders to the empty string. -/
theorem github_actions_report_format_witness :
    annotationType (scenarioIssue "warning") = "warning" ∧
    annotationType (scenarioIssue "error") = "error" ∧
    generate_github_actions_report [CheckResult.init "f.py"] = "" := by
  have h := github_actions_report_format [CheckResult.init "f.py"]
  exact ⟨h.2.1 (scenarioIssue "warning") (by decide), h.2.2.1 (scenarioIssue "error") rfl,
    h.2.2.2.2 rfl⟩

/-- Claim C10: in both the text report and the CI-annotation report, an issue
whose column is `0` is rendered exactly as if the column were absent,
because the column joins the location only when truthy; the two rendered
lines are identical. -/
theorem column_zero_renders_as_absent (i : Issue) :
    textIssueLine { i with column := some 0 } = textIssueLine { i with column := none } ∧
    annotationLine { i with column := some 0 } = annotationLine { i with column := none } := by
  constructor <;> simp [textIssueLine, annotationLine, annotationType, columnTruthy, checkerInfo]

/-- Claim C9 counterexample: the claim says that after `add_issues` stores an
issue built from a raw map lacking a severity, the stored issue does not
yet carry the defaulted value, the default being applied only by the
counting path.  In the code, `add_issues` builds the issue with
`issue_data.get("severity", "error")`, so the stored issue already carries
`"error"` at construction time. -/
theorem severity_defaulted_at_construction_cex :
    (((CheckResult.init "f.py").add_issues [rawNoSeverity] "type-check").issues.map
      (fun i => i.severity)) = ["error"] := rfl

/-- Claim C9 (amended): issue construction from a raw map never fails (it is
total, every field defaulted); a missing severity is defaulted to
`"error"` already at construction inside `add_issues`, a present severity
(canonical or not) is stored unchanged, and a stored non-canonical
severity is coerced into the `"error"` bucket at the point where counts
are summarized. -/
theorem severity_default_points (path cname : String) (raw : RawIssue) (i : Issue) :
    (raw.severity = none → (mkIssue path cname raw).severity = "error") ∧
    (∀ s, raw.severity = some s → (mkIssue path cname raw).severity = s) ∧
    (i.severity ≠ "error" → i.severity ≠ "warning" → i.severity ≠ "info" →
      i.severity ≠ "note" →
      lookupD { CheckResult.init path with
        issues := [i] }.get_issue_count_by_severity "error" = 1) := by
  refine ⟨?_, ?_, ?_⟩
  · intro h
    simp [mkIssue, h]
  · intro s h
    simp [mkIssue, h]
  · intro h1 h2 h3 h4
    rw [(lookupD_counts _).1]
    simp [countErrorLike, h2, h3, h4]

/-- Witness for C9 at concrete inputs: the raw map without a severity is
stored with severity `"error"`, and an issue with the non-canonical
severity `"fatal"` is counted under `"error"` when summarized. -/
theorem severity_default_points_witness :
    (mkIssue "f.py" "type-check" rawNoSeverity).severity = "error" ∧
    lookupD { CheckResult.init "f.py" with
      issues := [issueFatal] }.get_issue_count_by_severity "error" = 1 := by
  have h := severity_default_points "f.py" "type-check" rawNoSeverity issueFatal
  exact ⟨h.1 rfl, h.2.2 (by decide) (by decide) (by decide) (by decide)⟩

/-! ## Parallel collection -/

theorem sortResults_perm (l : List CheckResult) : (sortResults l).Perm l :=
  List.perm_insertionSort pathLe l

theorem sortResults_sorted (l : List CheckResult) : List.Sorted pathLe (sortResults l) :=
  List.sorted_insertionSort pathLe l

theorem sortResults_length (l : List CheckResult) : (sortResults l).length = l.length :=
  (sortResults_perm l).length_eq

/-- Claim C1: `check_files_parallel` and `fix_files_parallel` return exactly
one result per requested path in either execution mode and for every
checker behaviour (including one that raises on every call); a future that
raises out of the scheduling layer is converted at the collection boundary
into a synthetic failed result for its path with `success = false` and a
`Parallel execution failed` message, so a path is never dropped and an
empty result list occurs only for an empty input list. -/
theorem results_cover_every_path (ck : Checkers) (config : PyQCConfig)
    (paths : List String) (arrival : List (String × TaskOutcome)) (dry_run : Bool)
    (hp : (arrival.map Prod.fst).Perm paths) :
    (check_files_parallel ck config paths arrival).length = paths.length ∧
    (fix_files_parallel ck config paths dry_run arrival).length = paths.length ∧
    (check_files_parallel ck config paths arrival = [] ↔ paths = []) ∧
    (∀ p e, config.parallel = true → (p, TaskOutcome.schedFailed e) ∈ arrival →
      ∃ r ∈ check_files_parallel ck config paths arrival,
        r.path = p ∧ r.success = false ∧
        r.error_message = some ("Parallel execution failed: " ++ e)) := by
  have harr : arrival.length = paths.length := by
    rw [← hp.length_eq, List.length_map]
  have hlen : (check_files_parallel ck config paths arrival).length = paths.length := by
    rw [check_files_parallel]
    by_cases he : paths.isEmpty
    · rw [if_pos he, List.isEmpty_iff.mp he]
      rfl
    · rw [if_neg he]
      cases hpar : config.parallel
      · rw [if_pos (by simp [hpar]), List.length_map]
      · rw [if_neg (by simp [hpar]), sortResults_length, List.length_map, harr]
  refine ⟨hlen, ?_, ?_, ?_⟩
  · rw [fix_files_parallel]
    by_cases he : paths.isEmpty
    · rw [if_pos he, List.isEmpty_iff.mp he]
      rfl
    · rw [if_neg he]
      cases hpar : config.parallel
      · rw [if_pos (by simp [hpar]), List.length_map]
      · rw [if_neg (by simp [hpar]), sortResults_length, List.length_map, harr]
  · rw [← List.length_eq_zero, ← List.length_eq_zero, hlen]
  · intro p e hpar hmem
    have hne : paths ≠ [] := by
      intro h0
      rw [h0] at hp
      have : arrival.map Prod.fst = [] := hp.eq_nil
      have : arrival = [] := by simpa using this
      rw [this] at hmem
      exact absurd hmem (List.not_mem_nil _)
    have he : paths.isEmpty = false := by
      cases paths
      · exact absurd rfl hne
      · rfl
    rw [check_files_parallel, if_neg (by simp [he]), if_neg (by simp [hpar])]
    refine ⟨collectCheck ck (p, TaskOutcome.schedFailed e), ?_, rfl, rfl, rfl⟩
    exact (sortResults_perm _).mem_iff.mpr (List.mem_map_of_mem _ hmem)

/-- Witness for C1 at a concrete input: two paths, the future of `"b.py"`
raising in the scheduling layer; both paths are still reported and the
raised future became a synthetic failed result. -/
theorem results_cover_every_path_witness :
    (check_files_parallel ckFailAll parallelConfig ["a.py", "b.py"]
      [("b.py", TaskOutcome.schedFailed "kaboom"), ("a.py", TaskOutcome.completed)]).length
        = 2 ∧
    (∃ r ∈ check_files_parallel ckFailAll parallelConfig ["a.py", "b.py"]
        [("b.py", TaskOutcome.schedFailed "kaboom"), ("a.py", TaskOutcome.completed)],
      r.path = "b.py" ∧ r.success = false ∧
      r.error_message = some ("Parallel execution failed: " ++ "kaboom")) := by
  have h := results_cover_every_path ckFailAll parallelConfig ["a.py", "b.py"]
    [("b.py", TaskOutcome.schedFailed "kaboom"), ("a.py", TaskOutcome.completed)] false
    (by decide)
  exact ⟨h.1, h.2.2.2 "b.py" "kaboom" rfl (by decide)⟩

/-- Claim C2 counterexample: the claim asserts the non-decreasing-by-path
order in every configured execution mode, but in sequential mode
(`parallel = false`) `check_files_parallel` returns results in input order
without sorting: for the input `["b.py", "a.py"]` the result sequence is
not non-decreasing by path string. -/
theorem result_order_cex :
    ¬ List.Sorted pathLe (check_files_parallel ckMissingAll seqConfig ["b.py", "a.py"]
      [("b.py", TaskOutcome.completed), ("a.py", TaskOutcome.completed)]) := by
  intro h
  have hres : check_files_parallel ckMissingAll seqConfig ["b.py", "a.py"]
      [("b.py", TaskOutcome.completed), ("a.py", TaskOutcome.completed)] =
      [check_file ckMissingAll "b.py", check_file ckMissingAll "a.py"] := rfl
  rw [hres] at h
  have hle : pathLe (check_file ckMissingAll "b.py") (check_file ckMissingAll "a.py") :=
    (List.sorted_cons.mp h).1 _ (List.mem_singleton.mpr rfl)
  have hb := (check_file_char ckMissingAll "b.py").1
  have ha := (check_file_char ckMissingAll "a.py").1
  unfold pathLe at hle
  rw [hb, ha, String.le_iff_toList_le] at hle
  exact absurd hle (by decide)

/-- Claim C2 (amended): in parallel mode the sequence returned by
`check_files_parallel` is non-decreasing by the string form of each
result's path, regardless of completion order; in sequential mode results
are returned in input order (sorted only if the input was). -/
theorem result_order_sorted_in_parallel_mode (ck : Checkers) (config : PyQCConfig)
    (paths : List String) (arrival : List (String × TaskOutcome)) :
    (config.parallel = true →
      List.Sorted pathLe (check_files_parallel ck config paths arrival)) ∧
    (config.parallel = false →
      check_files_parallel ck config paths arrival = paths.map (check_file ck)) := by
  constructor
  · intro hpar
    rw [check_files_parallel]
    by_cases he : paths.isEmpty
    · rw [if_pos he]
      exact List.sorted_nil
    · rw [if_neg he, if_neg (by simp [hpar])]
      exact sortResults_sorted _
  · intro hpar
    rw [check_files_parallel]
    by_cases he : paths.isEmpty
    · rw [if_pos he, List.isEmpty_iff.mp he]
      rfl
    · rw [if_neg he, if_pos (by simp [hpar])]

/-- Witness for C2 (amended) at concrete inputs: a parallel run over
out-of-order completions is sorted, and a sequential run returns input
order. -/
theorem result_order_sorted_in_parallel_mode_witness :
    List.Sorted pathLe (check_files_parallel ckMissingAll parallelConfig ["b.py", "a.py"]
      [("a.py", TaskOutcome.completed), ("b.py", TaskOutcome.completed)]) ∧
    check_files_parallel ckMissingAll seqConfig ["b.py", "a.py"]
        [("a.py", TaskOutcome.completed), ("b.py", TaskOutcome.completed)] =
      ["b.py", "a.py"].map (check_file ckMissingAll) := by
  exact ⟨(result_order_sorted_in_parallel_mode ckMissingAll parallelConfig ["b.py", "a.py"]
      [("a.py", TaskOutcome.completed), ("b.py", TaskOutcome.completed)]).1 rfl,
    (result_order_sorted_in_parallel_mode ckMissingAll seqConfig ["b.py", "a.py"]
      [("a.py", TaskOutcome.completed), ("b.py", TaskOutcome.completed)]).2 rfl⟩

/-- Two sorted lists that are permutations of each other are equal, given
antisymmetry of the path order on their members (globally, `pathLe` is not
antisymmetric: two distinct results may share a path). -/
theorem eq_of_perm_of_sorted_pathLe {l₁ l₂ : List CheckResult} (hp : l₁.Perm l₂)
    (hs₁ : List.Sorted pathLe l₁) (hs₂ : List.Sorted pathLe l₂)
    (ha : ∀ a ∈ l₁, ∀ b ∈ l₁, a.path = b.path → a = b) : l₁ = l₂ := by
  induction l₁ generalizing l₂ with
  | nil => exact hp.nil_eq
  | cons a t ih =>
    cases l₂ with
    | nil => exact absurd hp (by simp)
    | cons b u =>
      have hab : a = b := by
        have hamem : a ∈ b :: u := hp.subset (List.mem_cons_self a t)
        have hbmem : b ∈ a :: t := hp.symm.subset (List.mem_cons_self b u)
        rcases List.mem_cons.mp hamem with h | h
        · exact h
        · rcases List.mem_cons.mp hbmem with h' | h'
          · exact h'.symm
          · have h1 : pathLe a b := (List.sorted_cons.mp hs₁).1 b h'
            have h2 : pathLe b a := (List.sorted_cons.mp hs₂).1 a h
            exact ha a (List.mem_cons_self a t) b (List.mem_cons_of_mem a h')
              (le_antisymm h1 h2)
      subst hab
      rw [ih hp.cons_inv (List.sorted_cons.mp hs₁).2 (List.sorted_cons.mp hs₂).2
        (fun x hx y hy hxy =>
          ha x (List.mem_cons_of_mem a hx) y (List.mem_cons_of_mem a hy) hxy)]

/-- A member of a `check_file` image is determined by its own path field. -/
theorem mem_map_check_file {ck : Checkers} {ps : List String} {x : CheckResult}
    (hx : x ∈ ps.map (check_file ck)) : x = check_file ck x.path := by
  obtain ⟨p, -, rfl⟩ := List.mem_map.mp hx
  rw [(check_file_char ck p).1]

/-- Claim C5: given deterministic checkers (each call a pure function of the
path) and normally completing futures, a parallel-mode run and a
sequential-mode run of `check_files_parallel` over the same non-empty path
list produce the same `(path, issue sequence)` pairs once both outputs are
sorted by path string, whatever the completion order of the parallel run
was. -/
theorem parallel_matches_sequential (ck : Checkers) (cfgP cfgS : PyQCConfig)
    (paths : List String) (arrival : List (String × TaskOutcome))
    (hP : cfgP.parallel = true) (hS : cfgS.parallel = false)
    (hp : (arrival.map Prod.fst).Perm paths)
    (hc : ∀ pr ∈ arrival, pr.2 = TaskOutcome.completed)
    (hne : paths ≠ []) :
    (sortResults (check_files_parallel ck cfgP paths arrival)).map
        (fun r => (r.path, r.issues)) =
      (sortResults (check_files_parallel ck cfgS paths arrival)).map
        (fun r => (r.path, r.issues)) := by
  have he : paths.isEmpty = false := by
    cases paths
    · exact absurd rfl hne
    · rfl
  have hpar : check_files_parallel ck cfgP paths arrival =
      sortResults ((arrival.map Prod.fst).map (check_file ck)) := by
    rw [check_files_parallel, if_neg (by simp [he]), if_neg (by simp [hP])]
    congr 1
    rw [List.map_map]
    exact List.map_congr_left (fun pr hpr => by
      rw [collectCheck, hc pr hpr]
      rfl)
  have hseq : check_files_parallel ck cfgS paths arrival = paths.map (check_file ck) := by
    rw [check_files_parallel, if_neg (by simp [he]), if_pos (by simp [hS])]
  rw [hpar, hseq]
  have hidem : sortResults (sortResults ((arrival.map Prod.fst).map (check_file ck))) =
      sortResults ((arrival.map Prod.fst).map (check_file ck)) :=
    List.Sorted.insertionSort_eq (sortResults_sorted _)
  rw [hidem]
  congr 1
  apply eq_of_perm_of_sorted_pathLe
  · exact (sortResults_perm _).trans ((hp.map (check_file ck)).trans (sortResults_perm _).symm)
  · exact sortResults_sorted _
  · exact sortResults_sorted _
  · intro a ha' b hb' hab
    have ea := mem_map_check_file ((sortResults_perm _).mem_iff.mp ha')
    have eb := mem_map_check_file ((sortResults_perm _).mem_iff.mp hb')
    rw [ea, eb, hab]

/-- Witness for C5 at a concrete input: two files, the parallel run
completing in reverse order, both runs compared after sorting. -/
theorem parallel_matches_sequential_witness :
    (sortResults (check_files_parallel ckOkEmpty parallelConfig ["a.py", "b.py"]
        [("b.py", TaskOutcome.completed), ("a.py", TaskOutcome.completed)])).map
        (fun r => (r.path, r.issues)) =
      (sortResults (check_files_parallel ckOkEmpty seqConfig ["a.py", "b.py"]
        [("b.py", TaskOutcome.completed), ("a.py", TaskOutcome.completed)])).map
        (fun r => (r.path, r.issues)) :=
  parallel_matches_sequential ckOkEmpty parallelConfig seqConfig ["a.py", "b.py"]
    [("b.py", TaskOutcome.completed), ("a.py", TaskOutcome.completed)]
    rfl rfl (by decide) (by decide) (by decide)
